import Mathlib

/-!
Shallow embedding of `src/Kubernetes/Order.py`, a FastAPI order service
backed by a MongoDB collection and an outbound HTTP existence check
against a user service.

Modelling conventions:
* The `orders` Mongo collection is a list of documents plus a counter
  that generates fresh `ObjectId`s (`insert_one` lets the store assign
  the `_id`).  Mongo `_id` values are modelled by `BsonId`: the store
  generates `objectId` keys, while the route handlers query with the
  caller-supplied path string, i.e. a `strId` key; in BSON a string
  never equals an ObjectId, so the two compare unequal.
* The user service (`httpx` GET on `USER_SERVICE_URL/users/uid`) is a
  function from the user id to either an HTTP response (status code and
  decoded body, the body kept as an opaque string) or a raised transport
  exception (`httpx.ConnectError`, timeout, ...) carrying its message.
* Python exceptions are the `PyExn` type; `strOfExn` models `str(e)`
  (for a `fastapi.HTTPException`, starlette renders "status: detail").
* Every route handler in the source wraps its body in
  `try: ... except Exception as e: raise HTTPException(500, str(e))`.
  `HTTPException` is a subclass of `Exception`, so the clause also
  catches the handler's own 404/400 raises.  The body of each handler is
  embedded as an `Except PyExn` computation and the wrapper
  `runHandler` / `runHandlerSt` is that `except` clause.
* `amount` is a Python `float`; no arithmetic is ever performed on it
  (it is only stored, copied and compared for the proofs), so it is
  embedded as `Rat`.
-/

namespace OrderApi

/-- A BSON `_id` value: either a store-generated `ObjectId` (keyed here
by the generation counter) or a string key.  In BSON, comparing a string
against an `ObjectId` is never equal. -/
inductive BsonId where
  | objectId : Nat → BsonId
  | strId : String → BsonId
deriving DecidableEq, Repr

/-- `str(_id)`: Python renders an `ObjectId` as its hex digest, an
opaque injective string; we model that rendering by the decimal digits
of the generation counter.  A string id renders as itself. -/
def idToString : BsonId → String
  | .objectId n => Nat.repr n
  | .strId s => s

/-- A document of the `orders` collection.  `create_order` inserts
exactly the fields of the `Order` pydantic model, and `update_order`
only `$set`s `product` / `amount`, so every document has this shape. -/
structure OrderDoc where
  bsonId : BsonId
  user_id : String
  product : String
  amount : Rat
deriving DecidableEq, Repr

/-- A document after `order["_id"] = str(order["_id"])`, i.e. with the
id rendered as a string, as returned over the HTTP surface. -/
structure StrOrderDoc where
  str0id : String
  user_id : String
  product : String
  amount : Rat
deriving DecidableEq, Repr

def stringifyDoc (d : OrderDoc) : StrOrderDoc :=
  { str0id := idToString d.bsonId, user_id := d.user_id,
    product := d.product, amount := d.amount }

/-- The `orders_collection` Mongo collection: its documents, in
insertion order, plus the generator state for fresh `ObjectId`s. -/
structure OrdersCollection where
  docs : List OrderDoc
  nextOid : Nat
deriving DecidableEq, Repr

/-- The pydantic `Order` request model (line 18): all three fields
required. -/
structure Order where
  user_id : String
  product : String
  amount : Rat
deriving DecidableEq, Repr

/-- The pydantic `OrderUpdate` request model (line 23): both fields
optional, defaulting to `None`. -/
structure OrderUpdate where
  product : Option String
  amount : Option Rat
deriving DecidableEq, Repr

/-- `orders_collection.find_one({"_id": q})` scans for the first
document whose `_id` equals the query value. -/
def findFirst (q : BsonId) : List OrderDoc → Option OrderDoc
  | [] => none
  | d :: ds => if d.bsonId = q then some d else findFirst q ds

def find_one (c : OrdersCollection) (q : BsonId) : Option OrderDoc :=
  findFirst q c.docs

/-- `orders_collection.insert_one(order.dict())`: the store generates a
fresh `ObjectId` and persists the document; the generated id is
returned (`result.inserted_id`). -/
def insert_one (c : OrdersCollection) (o : Order) : OrdersCollection × BsonId :=
  let oid := BsonId.objectId c.nextOid
  ({ docs := c.docs ++
      [{ bsonId := oid, user_id := o.user_id, product := o.product, amount := o.amount }],
     nextOid := c.nextOid + 1 }, oid)

/-- `{"$set": update_dict}` applied to one document: each key present
(non-`None`) in the patch is set, every other field is untouched. -/
def applySet (u : OrderUpdate) (d : OrderDoc) : OrderDoc :=
  { d with product := u.product.getD d.product,
           amount := u.amount.getD d.amount }

/-- `orders_collection.update_one({"_id": q}, {"$set": u})`: updates the
first matching document; the second component is `matched_count`. -/
def updateFirst (q : BsonId) (u : OrderUpdate) : List OrderDoc → List OrderDoc × Nat
  | [] => ([], 0)
  | d :: ds =>
    if d.bsonId = q then (applySet u d :: ds, 1)
    else
      let r := updateFirst q u ds
      (d :: r.1, r.2)

def update_one (c : OrdersCollection) (q : BsonId) (u : OrderUpdate) :
    OrdersCollection × Nat :=
  let r := updateFirst q u c.docs
  ({ docs := r.1, nextOid := c.nextOid }, r.2)

/-- `orders_collection.delete_one({"_id": q})`: removes the first
matching document; the second component is `deleted_count`. -/
def deleteFirst (q : BsonId) : List OrderDoc → List OrderDoc × Nat
  | [] => ([], 0)
  | d :: ds =>
    if d.bsonId = q then (ds, 1)
    else
      let r := deleteFirst q ds
      (d :: r.1, r.2)

def delete_one (c : OrdersCollection) (q : BsonId) : OrdersCollection × Nat :=
  let r := deleteFirst q c.docs
  ({ docs := r.1, nextOid := c.nextOid }, r.2)

/-- Outcome of `await client.get(USER_SERVICE_URL/users/uid)`: either a
response (status code plus decoded `response.json()` body, kept as an
opaque string) or a raised transport exception with its message. -/
inductive HttpResult where
  | response : Nat → String → HttpResult
  | exn : String → HttpResult
deriving DecidableEq, Repr

/-- The ambient user-service behaviour (the `USER_SERVICE_URL`
environment variable together with the network), as a function of the
user id appearing in the request path. -/
abbrev UserEnv : Type := String → HttpResult

/-- Python exceptions that can be raised inside a handler body:
`fastapi.HTTPException(status_code, detail)`, an `httpx` transport
error, an `AttributeError`, or a `TypeError`. -/
inductive PyExn where
  | httpExn : Nat → String → PyExn
  | httpxError : String → PyExn
  | attributeError : String → PyExn
  | typeError : String → PyExn
deriving DecidableEq, Repr

/-- `str(e)`.  Starlette defines `HTTPException.__str__` as
"status_code: detail"; the other exceptions render as their message. -/
def strOfExn : PyExn → String
  | .httpExn st detail => Nat.repr st ++ ": " ++ detail
  | .httpxError m => m
  | .attributeError m => m
  | .typeError m => m

/-- What the HTTP caller observes from a handler: a success value, or an
`HTTPException` escaping to the framework with its status and detail. -/
inductive Outcome (α : Type) where
  | ok : α → Outcome α
  | err : Nat → String → Outcome α
deriving DecidableEq, Repr

/-- `only500 o` holds when `o` is not a client-visible error other than
HTTP 500. -/
def only500 {α : Type} : Outcome α → Prop
  | .ok _ => True
  | .err st _ => st = 500

/-- The `except Exception as e: raise HTTPException(500, str(e))`
clause shared by all five handlers, for the read-only handlers. -/
def runHandler {α : Type} : Except PyExn α → Outcome α
  | .ok a => .ok a
  | .error e => .err 500 (strOfExn e)

/-- The same `except` clause for the handlers that mutate the store
(the store mutations already committed are kept, not rolled back). -/
def runHandlerSt {α : Type} (r : Except PyExn α × OrdersCollection) :
    Outcome α × OrdersCollection :=
  (runHandler r.1, r.2)

/-- Python attribute access on a plain `dict`.  pymongo `find_one`
returns a `dict`, and a `dict` exposes no data attributes, so
`order.user_id` (line 53) raises
`AttributeError("'dict' object has no attribute 'user_id'")` for every
document.  The message is modelled without the inner quotes. -/
def dictGetattr (_d : OrderDoc) (name : String) : Except PyExn String :=
  .error (.attributeError ("dict object has no attribute " ++ name))

/-- Body of `create_order` (lines 31-40): check the user exists via the
user service, then insert and return the document with its assigned id
rendered as a string. -/
def create_order_body (env : UserEnv) (c : OrdersCollection) (order : Order) :
    Except PyExn StrOrderDoc × OrdersCollection :=
  match env order.user_id with
  | .exn m => (.error (.httpxError m), c)
  | .response st _body =>
    if st ≠ 200 then (.error (.httpExn 404 "User not found"), c)
    else
      let p := insert_one c order
      (.ok { str0id := idToString p.2, user_id := order.user_id,
             product := order.product, amount := order.amount }, p.1)

def create_order (env : UserEnv) (c : OrdersCollection) (order : Order) :
    Outcome StrOrderDoc × OrdersCollection :=
  runHandlerSt (create_order_body env c order)

/-- The `{"order": ..., "user": ...}` dict returned by `get_order`
(line 59); the user body is the raw decoded response. -/
structure GetResult where
  order : StrOrderDoc
  user : String
deriving DecidableEq, Repr

/-- Body of `get_order` (lines 46-59): look the order up by the
caller-supplied string id, 404 when absent; otherwise build the user
service URL from `order.user_id` — attribute access on the `dict`
returned by `find_one`, which raises `AttributeError` before the
outbound call is made — then (were that to succeed) check the user and
return the enriched pair. -/
def get_order_body (env : UserEnv) (c : OrdersCollection) (order_id : String) :
    Except PyExn GetResult :=
  match find_one c (.strId order_id) with
  | none => .error (.httpExn 404 "Order not found")
  | some order =>
    match dictGetattr order "user_id" with
    | .error e => .error e
    | .ok uid =>
      match env uid with
      | .exn m => .error (.httpxError m)
      | .response st body =>
        if st ≠ 200 then .error (.httpExn 404 "User not found")
        else .ok { order := stringifyDoc order, user := body }

def get_order (env : UserEnv) (c : OrdersCollection) (order_id : String) :
    Outcome GetResult :=
  runHandler (get_order_body env c order_id)

/-- Body of `list_orders` (lines 65-69): a full scan, each document
returned with its id rendered as a string.  The handler has the ambient
user-service configuration in scope but never issues an outbound call,
so `env` is unused. -/
def list_orders_body (_env : UserEnv) (c : OrdersCollection) :
    Except PyExn (List StrOrderDoc) :=
  .ok (c.docs.map stringifyDoc)

def list_orders (env : UserEnv) (c : OrdersCollection) :
    Outcome (List StrOrderDoc) :=
  runHandler (list_orders_body env c)

/-- Body of `update_order` (lines 75-84): `update_dict` keeps the
non-`None` fields of the patch; `if not update_dict` rejects an empty
patch with 400; `update_one` with `$set`, 404 when `matched_count` is
0; then re-fetch and return the merged document.  Were the re-fetch to
return `None`, the subscript on line 83 would raise `TypeError`. -/
def update_order_body (_env : UserEnv) (c : OrdersCollection) (order_id : String)
    (order_update : OrderUpdate) : Except PyExn StrOrderDoc × OrdersCollection :=
  if order_update.product = none ∧ order_update.amount = none then
    (.error (.httpExn 400 "No fields to update"), c)
  else
    let r := update_one c (.strId order_id) order_update
    if r.2 = 0 then (.error (.httpExn 404 "Order not found"), r.1)
    else
      match find_one r.1 (.strId order_id) with
      | none => (.error (.typeError "NoneType object is not subscriptable"), r.1)
      | some d => (.ok (stringifyDoc d), r.1)

def update_order (env : UserEnv) (c : OrdersCollection) (order_id : String)
    (order_update : OrderUpdate) : Outcome StrOrderDoc × OrdersCollection :=
  runHandlerSt (update_order_body env c order_id order_update)

/-- The `{"message": "Order deleted"}` confirmation dict (line 94). -/
structure DeleteResponse where
  message : String
deriving DecidableEq, Repr

/-- Body of `delete_order` (lines 90-94): `delete_one`, 404 when
`deleted_count` is 0, else the confirmation message. -/
def delete_order_body (_env : UserEnv) (c : OrdersCollection) (order_id : String) :
    Except PyExn DeleteResponse × OrdersCollection :=
  let r := delete_one c (.strId order_id)
  if r.2 = 0 then (.error (.httpExn 404 "Order not found"), r.1)
  else (.ok { message := "Order deleted" }, r.1)

def delete_order (env : UserEnv) (c : OrdersCollection) (order_id : String) :
    Outcome DeleteResponse × OrdersCollection :=
  runHandlerSt (delete_order_body env c order_id)

/-! Helper lemmas shared by the claim theorems. -/

/-- The `except` clause turns every raised exception into HTTP 500, so
no other error status can be observed. -/
theorem only500_runHandler {α : Type} (r : Except PyExn α) :
    only500 (runHandler r) := by
  cases r with
  | ok a => trivial
  | error e => rfl

/-- `update_one` reports `matched_count = 1` whenever `find_one` with
the same query finds a document. -/
theorem updateFirst_matched_of_found {q : BsonId} {u : OrderUpdate}
    {l : List OrderDoc} {d : OrderDoc} (h : findFirst q l = some d) :
    (updateFirst q u l).2 = 1 := by
  induction l with
  | nil => simp [findFirst] at h
  | cons e l ih =>
    by_cases hq : e.bsonId = q
    · simp [updateFirst, hq]
    · rw [findFirst, if_neg hq] at h
      simp [updateFirst, hq, ih h]

/-- Re-fetching after `update_one` returns the first matched document
with the `$set` patch applied: `applySet` preserves `_id`, so the same
query finds the merged document. -/
theorem findFirst_updateFirst {q : BsonId} {u : OrderUpdate}
    {l : List OrderDoc} {d : OrderDoc} (h : findFirst q l = some d) :
    findFirst q (updateFirst q u l).1 = some (applySet u d) := by
  induction l with
  | nil => simp [findFirst] at h
  | cons e l ih =>
    by_cases hq : e.bsonId = q
    · have he : e = d := by
        rw [findFirst, if_pos hq] at h
        exact Option.some.inj h
      subst he
      simp [updateFirst, hq, findFirst, applySet]
    · rw [findFirst, if_neg hq] at h
      simp [updateFirst, hq, findFirst, ih h]

/-! Claim theorems. -/

/-- Claim C1: the create-then-get round trip is broken on the code.  At
a concrete input whose user resolves with status 200, Create succeeds
and returns the stored record with its assigned id rendered as a
string, but Get on that returned id does not return the enriched order:
the handler queries `{"_id": order_id}` with the path string, which
never equals the stored `ObjectId`, so the not-found branch is taken
and the 404 is flattened to HTTP 500 by the blanket `except` clause
(and had the lookup matched, `order.user_id` on the `dict` would raise
`AttributeError`, likewise flattened to 500). -/
theorem create_get_roundtrip_broken :
    (create_order (fun _ => .response 200 "ubody") { docs := [], nextOid := 0 }
        { user_id := "u1", product := "widget", amount := 25/2 }).1 =
      .ok { str0id := "0", user_id := "u1", product := "widget", amount := 25/2 } ∧
    get_order (fun _ => .response 200 "ubody")
        (create_order (fun _ => .response 200 "ubody") { docs := [], nextOid := 0 }
          { user_id := "u1", product := "widget", amount := 25/2 }).2 "0" =
      .err 500 "404: Order not found" :=
  ⟨rfl, rfl⟩

/-- Claim C2: when the user service answers with a non-200 status,
Create inserts nothing — the returned store is the unchanged input
store — but the `HTTPException(404, "User not found")` raised on
line 35 is caught by the handler's own `except Exception` clause and
re-raised as HTTP 500, so the caller observes 500, not 404. -/
theorem create_user_not_found_flattened :
    create_order (fun _ => .response 404 "missing")
        { docs := [{ bsonId := .strId "b", user_id := "u2", product := "book", amount := 3 }],
          nextOid := 7 }
        { user_id := "u9", product := "pen", amount := 4 } =
      (.err 500 "404: User not found",
       { docs := [{ bsonId := .strId "b", user_id := "u2", product := "book", amount := 3 }],
         nextOid := 7 }) :=
  rfl

/-- Claim C3: when the outbound existence check raises a transport
exception, Create fails with HTTP 500 carrying the raw fault text and
returns the store unchanged — no record is inserted. -/
theorem create_unreachable_internal_error (env : UserEnv) (c : OrdersCollection)
    (order : Order) (m : String) (h : env order.user_id = .exn m) :
    create_order env c order = (.err 500 m, c) := by
  simp [create_order, create_order_body, runHandlerSt, runHandler, strOfExn, h]

/-- Witness for C3 at a concrete connection failure. -/
theorem create_unreachable_internal_error_witness :
    create_order (fun _ => .exn "Connection refused") { docs := [], nextOid := 1 }
        { user_id := "u3", product := "cup", amount := 5 } =
      (.err 500 "Connection refused", { docs := [], nextOid := 1 }) :=
  create_unreachable_internal_error _ _ _ _ rfl

/-- Claim C4: deleting a present id twice yields the success
confirmation first, but the second delete does not yield HTTP 404: the
`HTTPException(404, "Order not found")` raised on line 93 is caught by
the blanket `except` clause and re-raised as HTTP 500. -/
theorem delete_twice_flattened :
    delete_order (fun _ => .response 200 "x")
        { docs := [{ bsonId := .strId "ord1", user_id := "u4", product := "gadget", amount := 6 }],
          nextOid := 2 } "ord1" =
      (.ok { message := "Order deleted" }, { docs := [], nextOid := 2 }) ∧
    delete_order (fun _ => .response 200 "x") { docs := [], nextOid := 2 } "ord1" =
      (.err 500 "404: Order not found", { docs := [], nextOid := 2 }) :=
  ⟨rfl, rfl⟩

/-- Claim C5: for every store, id and user-service behaviour, Update
with a patch carrying no non-null fields leaves the store unchanged,
but the `HTTPException(400, "No fields to update")` raised on line 78
is caught by the blanket `except` clause and surfaces as HTTP 500, not
as the claimed 400 BadRequest. -/
theorem update_empty_patch_flattened (env : UserEnv) (c : OrdersCollection)
    (order_id : String) :
    update_order env c order_id { product := none, amount := none } =
      (.err 500 "400: No fields to update", c) :=
  rfl

/-- Claim C6: merge-patch semantics of Update.  For every stored order
matched by the given string id and every patch with at least one
non-null field, Update succeeds, the returned record carries exactly
the supplied non-null values while `user_id`, the id, and every field
absent from the patch keep their stored values, and re-fetching the id
from the resulting store yields the stored document with only the
supplied fields changed. -/
theorem update_merge_patch_semantics (env : UserEnv) (c : OrdersCollection)
    (order_id : String) (u : OrderUpdate) (d : OrderDoc)
    (hfind : find_one c (.strId order_id) = some d)
    (hne : ¬(u.product = none ∧ u.amount = none)) :
    (update_order env c order_id u).1 =
      .ok { str0id := idToString d.bsonId, user_id := d.user_id,
            product := u.product.getD d.product, amount := u.amount.getD d.amount } ∧
    find_one (update_order env c order_id u).2 (.strId order_id) =
      some { bsonId := d.bsonId, user_id := d.user_id,
             product := u.product.getD d.product, amount := u.amount.getD d.amount } := by
  have h1 : (updateFirst (.strId order_id) u c.docs).2 = 1 :=
    updateFirst_matched_of_found hfind
  have h2 : findFirst (.strId order_id) (updateFirst (.strId order_id) u c.docs).1
      = some (applySet u d) := findFirst_updateFirst hfind
  constructor <;>
    simp [update_order, update_order_body, update_one, find_one, runHandlerSt,
      runHandler, hne, h1, h2, stringifyDoc, applySet]

/-- Witness for C6: patching only `amount` to 9.5 keeps `product` and
`user_id` and replaces `amount`. -/
theorem update_merge_patch_semantics_witness :
    (update_order (fun _ => .response 200 "x")
        { docs := [{ bsonId := .strId "a", user_id := "u1", product := "widget", amount := 25/2 }],
          nextOid := 0 } "a" { product := none, amount := some (19/2) }).1 =
      .ok { str0id := "a", user_id := "u1", product := "widget", amount := 19/2 } ∧
    find_one (update_order (fun _ => .response 200 "x")
        { docs := [{ bsonId := .strId "a", user_id := "u1", product := "widget", amount := 25/2 }],
          nextOid := 0 } "a" { product := none, amount := some (19/2) }).2 (.strId "a") =
      some { bsonId := .strId "a", user_id := "u1", product := "widget", amount := 19/2 } :=
  update_merge_patch_semantics _ _ _ _
    { bsonId := .strId "a", user_id := "u1", product := "widget", amount := 25/2 }
    rfl (by simp)

/-- Claim C7: List issues no outbound existence query — its outcome is
a function of the store alone, identical under any two behaviours of
the user service. -/
theorem list_ignores_user_service (env1 env2 : UserEnv) (c : OrdersCollection) :
    list_orders env1 c = list_orders env2 c :=
  rfl

/-- Claim C8: the error-propagation policy fails on the code.  At a
concrete input the domain-level failure OrderNotFound — explicitly
classified by the handler as `HTTPException(404, "Order not found")` —
is not surfaced with status 404: the blanket `except` clause flattens
it to HTTP 500 carrying the rendered exception text, as it does every
classified failure. -/
theorem domain_error_flattened_to_500 :
    delete_order (fun _ => .response 200 "b") { docs := [], nextOid := 5 } "zz" =
      (.err 500 "404: Order not found", { docs := [], nextOid := 5 }) :=
  rfl

/-- Claim C9: every failing execution of any of the five handlers
surfaces as HTTP 500 — no 400 or 404 ever reaches the caller — because
each handler body runs under the blanket `except Exception` clause that
re-raises every exception, the handler's own `HTTPException`s included,
with status 500 and `str(e)` as detail. -/
theorem all_failures_are_500 (env : UserEnv) (c : OrdersCollection) (order : Order)
    (order_id : String) (u : OrderUpdate) :
    only500 (create_order env c order).1 ∧
    only500 (get_order env c order_id) ∧
    only500 (list_orders env c) ∧
    only500 (update_order env c order_id u).1 ∧
    only500 (delete_order env c order_id).1 :=
  ⟨only500_runHandler _, only500_runHandler _, only500_runHandler _,
   only500_runHandler _, only500_runHandler _⟩

/-- Claim C10: Get never succeeds.  For every user-service behaviour,
store and id, `get_order` errors with HTTP 500: when no document
matches the string id the 404 not-found raise is flattened to 500, and
when a document is found the attribute access `order.user_id` on the
`dict` raises `AttributeError`, likewise flattened to 500. -/
theorem get_never_succeeds (env : UserEnv) (c : OrdersCollection) (order_id : String) :
    get_order env c order_id = .err 500 "404: Order not found" ∨
    get_order env c order_id = .err 500 "dict object has no attribute user_id" := by
  cases hfind : find_one c (.strId order_id) with
  | none =>
    left
    simp only [get_order, get_order_body, hfind]
    rfl
  | some d =>
    right
    simp only [get_order, get_order_body, hfind]
    rfl

end OrderApi
